import Mathlib

/-!
Verification of the Drive-to-GitHub-Release migration script
(src/upload_script.py) against its natural-language specification.

The script is shallowly embedded: every external effect (HTTP response,
exception, resulting file state on disk) is an input drawn from an
explicit environment, and each Python function becomes a Lean function of
that environment.  The three self-recursive retrying functions
(download_from_drive_gdown, create_unique_release, upload_to_release) are
embedded with an explicit fuel argument equal to MAX_RETRIES - retry_count;
the guard `retry_count >= MAX_RETRIES` of the Python code is exactly the
condition `fuel = 0`, and every recursive call passes retry_count + 1,
so the translation is exact.
-/

set_option maxRecDepth 100000

namespace UploadScript

/-! ## String utilities (substring tests, strip, lower) -/

/-- Boolean prefix test on character lists. -/
def isPrefixOfCL : List Char → List Char → Bool
  | [], _ => true
  | _ :: _, [] => false
  | a :: as, b :: bs => a == b && isPrefixOfCL as bs

/-- Python substring containment (`needle in hay`) on character lists. -/
def containsSubCL (needle : List Char) : List Char → Bool
  | [] => isPrefixOfCL needle []
  | c :: t => isPrefixOfCL needle (c :: t) || containsSubCL needle t

/-- Python `needle in hay` for strings. -/
def strContains (hay needle : String) : Bool :=
  containsSubCL needle.toList hay.toList

/-- Python `str.lower()` (ASCII, which is all the script compares). -/
def strToLower (s : String) : String :=
  String.mk (s.toList.map Char.toLower)

/-- Drop leading whitespace, first half of Python `str.strip()`. -/
def dropLeadingWS (xs : List Char) : List Char :=
  xs.dropWhile Char.isWhitespace

/-- Drop trailing whitespace, second half of Python `str.strip()`. -/
def dropTrailingWS : List Char → List Char
  | [] => []
  | c :: t =>
    let r := dropTrailingWS t
    if r.isEmpty && c.isWhitespace then [] else c :: r

/-- Python `str.strip()`: remove leading and trailing whitespace. -/
def pyStrip (s : String) : String :=
  String.mk (dropTrailingWS (dropLeadingWS s.toList))

/-- Python truthiness test `not line` for a string: emptiness. -/
def lineEmpty (s : String) : Bool := s.toList.isEmpty

/-- Python `line.startswith('#')`. -/
def startsWithHash (s : String) : Bool :=
  match s.toList with
  | c :: _ => c == '#'
  | [] => false

/-! ## Link classifier (the if-chain at the top of the per-line loop) -/

/-- Marker test `'github.com' in line or 'githubusercontent.com' in line`. -/
def hasGithubMarker (line : String) : Bool :=
  strContains line "github.com" || strContains line "githubusercontent.com"

/-- Marker test `'drive.google.com' in line`. -/
def hasDriveMarker (line : String) : Bool :=
  strContains line "drive.google.com"

/-- The four-way classification performed by the if-chain of the per-line
loop in process_drive_file, applied to the stripped line, in source order:
empty-or-comment first, then the GitHub markers, then the Drive marker. -/
inductive LineClass where
  | emptyOrComment
  | alreadyGithub
  | notDrive
  | driveUrl
deriving DecidableEq, Repr

/-- Classifier for one stripped line, mirroring the code order exactly. -/
def classifyLine (line : String) : LineClass :=
  if lineEmpty line || startsWithHash line then .emptyOrComment
  else if hasGithubMarker line then .alreadyGithub
  else if !hasDriveMarker line then .notDrive
  else .driveUrl

/-! ## Identifier extraction (extract_drive_file_id)

Each regex of the Python list is a string literal followed by the capture
group `([a-zA-Z0-9_-]+)`.  `re.search` finds the leftmost position where
the literal matches and at least one identifier character follows, and the
greedy capture takes the maximal run of identifier characters there. -/

/-- Character class `[a-zA-Z0-9_-]` of the capture groups. -/
def isIdChar (c : Char) : Bool :=
  ('a' ≤ c && c ≤ 'z') || ('A' ≤ c && c ≤ 'Z') || ('0' ≤ c && c ≤ '9')
    || c == '_' || c == '-'

/-- Drop a literal from the front of a character list, if it matches. -/
def dropLitCL : List Char → List Char → Option (List Char)
  | [], s => some s
  | _ :: _, [] => none
  | a :: as, b :: bs => if a == b then dropLitCL as bs else none

/-- Try to match `lit([a-zA-Z0-9_-]+)` at the start of s, returning the
greedy capture. -/
def matchIdAt (lit : List Char) (s : List Char) : Option (List Char) :=
  match dropLitCL lit s with
  | none => none
  | some rest =>
    let run := rest.takeWhile isIdChar
    if run.isEmpty then none else some run

/-- re.search for `lit([a-zA-Z0-9_-]+)`: leftmost match wins. -/
def searchIdCL (lit : List Char) : List Char → Option (List Char)
  | [] => matchIdAt lit []
  | c :: t =>
    match matchIdAt lit (c :: t) with
    | some r => some r
    | none => searchIdCL lit t

/-- String wrapper for the single-pattern search. -/
def searchId (lit : String) (url : String) : Option String :=
  (searchIdCL lit.toList url.toList).map String.mk

/-- The ordered pattern list of extract_drive_file_id (each regex reduced
to its literal part; the capture group is common to all four). -/
def drivePatternLits : List String :=
  ["/file/d/", "id=", "/d/", "download?id="]

/-- The for-loop of extract_drive_file_id: first matching pattern wins. -/
def firstMatch (url : String) : List String → Option String
  | [] => none
  | p :: ps =>
    match searchId p url with
    | some m => some m
    | none => firstMatch url ps

/-- extract_drive_file_id from the script. -/
def extract_drive_file_id (url : String) : Option String :=
  firstMatch url drivePatternLits

/-! ## Metadata lookup and filename derivation -/

/-- get_drive_file_info: `resp` is `some name` when the metadata endpoint
answered 200 with a name field; any non-200 status, missing field, or
exception is `none` and yields the synthesized name from the first 8
characters of the identifier. -/
def get_drive_file_info (file_id : String) (resp : Option String) : String :=
  match resp with
  | some name => name
  | none => "video_" ++ String.mk (file_id.toList.take 8) ++ ".mp4"

/-- Final path component, as pathlib uses (text after the last slash). -/
def finalComponent (s : String) : String :=
  String.mk ((s.toList.reverse.takeWhile (fun c => !(c == '/'))).reverse)

/-- Index of the last dot of a character list, if any. -/
def rfindDotAux : List Char → Nat → Option Nat → Option Nat
  | [], _, acc => acc
  | c :: t, i, acc => rfindDotAux t (i + 1) (if c == '.' then some i else acc)

/-- Index of the last dot of a character list, if any. -/
def rfindDot (cs : List Char) : Option Nat := rfindDotAux cs 0 none

/-- pathlib `Path(name).suffix`: the part of the final component from its
last dot on, provided that dot is neither first nor last character. -/
def pathSuffix (name : String) : String :=
  let cs := (finalComponent name).toList
  match rfindDot cs with
  | some i => if 0 < i ∧ i < cs.length - 1 then String.mk (cs.drop i) else ""
  | none => ""

/-- pathlib `Path(name).stem`: final component without the suffix. -/
def pathStem (name : String) : String :=
  let cs := (finalComponent name).toList
  match rfindDot cs with
  | some i => if 0 < i ∧ i < cs.length - 1 then String.mk (cs.take i) else String.mk cs
  | none => String.mk cs

/-- The sanitize-and-truncate step:
`re.sub(r'[^a-zA-Z0-9_-]', '_', base_name)[:50]`. -/
def safeName (base : String) : String :=
  String.mk ((base.toList.map (fun c => if isIdChar c then c else '_')).take 50)

/-! ## Primary download (download_from_drive_gdown) -/

/-- MAX_RETRIES = 3 from the script configuration. -/
def MAX_RETRIES : Nat := 3

/-- Outcome of one `gdown.download` call: either it returns, leaving the
output path in the given state (absent, or present with a size), or it
raises with a message, leaving the output path in the given state. -/
inductive GdownOutcome where
  | ret (fileAfter : Option Nat)
  | exn (msg : String) (fileAfter : Option Nat)

/-- Result of the primary download routine: the returned boolean, the
final state of the output path, and how many `gdown.download` calls were
issued. -/
structure DlResult where
  success : Bool
  file : Option Nat
  attempts : Nat
deriving DecidableEq, Repr

/-- The access-denial test of the except-branch:
`"access denied" in str(e).lower() or "permission" in str(e).lower()`. -/
def accessDenied (msg : String) : Bool :=
  strContains (strToLower msg) "access denied" || strContains (strToLower msg) "permission"

/-- Body of download_from_drive_gdown.  `rc` is retry_count, `fuel` is
MAX_RETRIES - retry_count (so `fuel = 0` is exactly the guard
`retry_count >= MAX_RETRIES`), `pre` is the state of the output path on
entry.  On a raise the file is removed if present; an access-denial
message returns False at once; otherwise the function re-calls itself
with retry_count + 1.  A returned call with the file absent or empty
(empty file removed) also re-calls; a non-empty file is success. -/
def gdownGo (genv : Nat → GdownOutcome) : Nat → Nat → Option Nat → DlResult
  | _, 0, pre => { success := false, file := pre, attempts := 0 }
  | rc, fuel + 1, _ =>
    match genv rc with
    | .ret none =>
      let r := gdownGo genv (rc + 1) fuel none
      { r with attempts := r.attempts + 1 }
    | .ret (some 0) =>
      let r := gdownGo genv (rc + 1) fuel none
      { r with attempts := r.attempts + 1 }
    | .ret (some (n + 1)) => { success := true, file := some (n + 1), attempts := 1 }
    | .exn msg _ =>
      if accessDenied msg then { success := false, file := none, attempts := 1 }
      else
        let r := gdownGo genv (rc + 1) fuel none
        { r with attempts := r.attempts + 1 }

/-- download_from_drive_gdown(file_id, output_path, retry_count), with the
environment `genv` giving the outcome of the attempt at each retry_count
value and `pre` the state of the output path on entry. -/
def download_from_drive_gdown (genv : Nat → GdownOutcome) (retry_count : Nat)
    (pre : Option Nat) : DlResult :=
  gdownGo genv retry_count (MAX_RETRIES - retry_count) pre

/-! ## Fallback download (download_large_file_fallback) -/

/-- Outcome of the single fallback invocation: either some request or
write raises (with the output path in the given state at that moment), or
streaming completes leaving a file of the given size. -/
inductive FallbackOutcome where
  | exn (fileAt : Option Nat)
  | done (size : Nat)

/-- download_large_file_fallback: on an exception the file is removed if
present and False is returned; a completed zero-length file is removed
and False returned; otherwise True. -/
def download_large_file_fallback (fout : FallbackOutcome) : Bool × Option Nat :=
  match fout with
  | .exn _ => (false, none)
  | .done 0 => (false, none)
  | .done (n + 1) => (true, some (n + 1))

/-! ## Combined download (download_from_drive) -/

/-- Result of download_from_drive, additionally recording how many gdown
attempts ran and whether the fallback was invoked. -/
structure DriveDlResult where
  success : Bool
  file : Option Nat
  gdownAttempts : Nat
  fallbackInvoked : Bool
deriving DecidableEq, Repr

/-- download_from_drive: try gdown first; if it failed and
retry_count < MAX_RETRIES, run the fallback once. -/
def download_from_drive (genv : Nat → GdownOutcome) (fout : FallbackOutcome)
    (retry_count : Nat) (pre : Option Nat) : DriveDlResult :=
  let g := download_from_drive_gdown genv retry_count pre
  if g.success = false ∧ retry_count < MAX_RETRIES then
    let f := download_large_file_fallback fout
    { success := f.1, file := f.2, gdownAttempts := g.attempts, fallbackInvoked := true }
  else
    { success := g.success, file := g.file, gdownAttempts := g.attempts, fallbackInvoked := false }

/-! ## Release publisher (generate_random_suffix, create_unique_release,
upload_to_release) -/

/-- `string.ascii_lowercase + string.digits`, the alphabet of
generate_random_suffix. -/
def suffixAlphabet : List Char := "abcdefghijklmnopqrstuvwxyz0123456789".toList

/-- generate_random_suffix(length=6): `random.choices` is modelled by a
pre-sampled stream `pick` of naturals; draw j of a call starting at
stream position `start` selects alphabet entry `pick (start + j) % 36`. -/
def generate_random_suffix (pick : Nat → Nat) (start : Nat) : String :=
  String.mk ((List.range 6).map (fun j => suffixAlphabet.getD (pick (start + j) % 36) 'a'))

/-- The tag-selection while-loop of create_unique_release.  The loop
counter starts at 1 and the loop breaks to the timestamp tag when the
incremented counter exceeds 10; `fuel = 11 - counter`, so the entry value
is 10 and the inner `fuel = 0` case is exactly `counter > 10` after the
increment.  `i` numbers the suffix generations, each consuming six stream
positions.  (The suffix generated on the tenth iteration is bound and
then overwritten by the timestamp tag, as in the code.) -/
def chooseTagGo (base : String) (existing : List String) (pick : Nat → Nat)
    (ts : Nat) : Nat → String → Nat → String
  | 0, tag, _ => tag
  | fuel + 1, tag, i =>
    if tag ∈ existing then
      let suffix := generate_random_suffix pick (6 * i)
      let tag2 := base ++ "-" ++ suffix
      match fuel with
      | 0 => base ++ "-" ++ Nat.repr ts
      | fuel2 + 1 => chooseTagGo base existing pick ts (fuel2 + 1) tag2 (i + 1)
    else tag

/-- Tag selection: start from the base name with counter = 1. -/
def chooseTag (base : String) (existing : List String) (pick : Nat → Nat)
    (ts : Nat) : String :=
  chooseTagGo base existing pick ts 10 base 0

/-- Response of one POST in create_unique_release: a status code, or an
exception from `requests.post`. -/
inductive ApiResp where
  | status (code : Nat)
  | exn

/-- Per-attempt environment of create_unique_release: the tag list that
get_all_releases returns for this attempt (an exception or non-200 inside
get_all_releases is already the empty list, as in the code), the random
stream, the current Unix timestamp, and the POST response. -/
structure CreateEnv where
  tags : List String
  pick : Nat → Nat
  timestamp : Nat
  resp : ApiResp

/-- Result of create_unique_release: the created release (identified by
its tag) or None, and the number of creation attempts made. -/
structure CreateResult where
  release : Option String
  attempts : Nat
deriving DecidableEq, Repr

/-- Body of create_unique_release with `fuel = MAX_RETRIES - retry_count`.
Status 201 succeeds; a status >= 500 or = 429 re-calls with
retry_count + 1; any other status returns None at once; ANY exception
re-calls with retry_count + 1. -/
def createGo (base : String) (cenv : Nat → CreateEnv) : Nat → Nat → CreateResult
  | _, 0 => { release := none, attempts := 0 }
  | rc, fuel + 1 =>
    let e := cenv rc
    let tag := chooseTag base e.tags e.pick e.timestamp
    match e.resp with
    | .status c =>
      if c = 201 then { release := some tag, attempts := 1 }
      else if 500 ≤ c ∨ c = 429 then
        let r := createGo base cenv (rc + 1) fuel
        { r with attempts := r.attempts + 1 }
      else { release := none, attempts := 1 }
    | .exn =>
      let r := createGo base cenv (rc + 1) fuel
      { r with attempts := r.attempts + 1 }

/-- create_unique_release(repo_name, base_name, token, retry_count); the
repository name and token only feed the HTTP request and are part of the
environment outcome. -/
def create_unique_release (base : String) (cenv : Nat → CreateEnv)
    (retry_count : Nat) : CreateResult :=
  createGo base cenv retry_count (MAX_RETRIES - retry_count)

/-- Response of one upload POST: a status code together with the asset
URL the body would carry on 201, a `requests.exceptions.Timeout`, or any
other exception. -/
inductive UploadResp where
  | status (code : Nat) (url : String)
  | timeoutExn
  | otherExn

/-- Result of upload_to_release: the asset URL or None, and the number of
upload attempts made. -/
structure UploadResult where
  url : Option String
  attempts : Nat
deriving DecidableEq, Repr

/-- Body of upload_to_release with `fuel = MAX_RETRIES - retry_count`.
Status 201 succeeds; a status >= 500 or = 408 re-calls; any other status
returns None at once; a Timeout exception re-calls; any other exception
ALSO re-calls (the final generic except branch). -/
def uploadGo (uenv : Nat → UploadResp) : Nat → Nat → UploadResult
  | _, 0 => { url := none, attempts := 0 }
  | rc, fuel + 1 =>
    match uenv rc with
    | .status c u =>
      if c = 201 then { url := some u, attempts := 1 }
      else if 500 ≤ c ∨ c = 408 then
        let r := uploadGo uenv (rc + 1) fuel
        { r with attempts := r.attempts + 1 }
      else { url := none, attempts := 1 }
    | .timeoutExn =>
      let r := uploadGo uenv (rc + 1) fuel
      { r with attempts := r.attempts + 1 }
    | .otherExn =>
      let r := uploadGo uenv (rc + 1) fuel
      { r with attempts := r.attempts + 1 }

/-- upload_to_release(repo_name, release_id, file_path, token,
retry_count). -/
def upload_to_release (uenv : Nat → UploadResp) (retry_count : Nat) : UploadResult :=
  uploadGo uenv retry_count (MAX_RETRIES - retry_count)

/-! ## Batch orchestrator (process_drive_file)

One entry of the failed_links list; the wall-clock timestamp string of
the record is outside the embedding.  The external-interaction count
`netCalls` of a processed entry counts the metadata lookup, each gdown
attempt, a fallback invocation, each release-creation attempt (which is a
tag-list fetch plus a POST, hence two), and each upload attempt. -/

structure Failure where
  url : String
  reason : String
  filename : Option String
  release_tag : Option String
deriving DecidableEq, Repr

/-- The environment one entry draws its external outcomes from. -/
structure EntryEnv where
  metaResp : Option String
  gdown : Nat → GdownOutcome
  fallback : FallbackOutcome
  create : Nat → CreateEnv
  upload : Nat → UploadResp

/-- Terminal state of one input line. -/
inductive EntryOutcome where
  | skippedEmpty
  | keptGithub (line : String)
  | skippedForeign
  | failedInvalidUrl
  | failedDownload
  | failedRelease
  | failedUpload
  | published (url : String)
deriving DecidableEq, Repr

/-- Everything one loop iteration contributes: its terminal outcome, the
lines it appends to github_links and to failed_links, the number of
external interactions, the final state of its temp file, and its
increment of processed_count. -/
structure EntryResult where
  outcome : EntryOutcome
  linksAdded : List String
  failuresAdded : List Failure
  netCalls : Nat
  tempFinal : Option Nat
  processedInc : Nat
deriving DecidableEq, Repr

/-- Failure reason strings of the script. -/
def invalidUrlReason : String := "Invalid Drive URL - Could not extract file ID"

/-- Failure reason for a failed download. -/
def downloadFailedReason : String := "Download Failed - Check if file is publicly accessible"

/-- Failure reason for a failed release creation. -/
def releaseFailedReason : String := "GitHub Release Creation Failed"

/-- Failure reason for a failed asset upload. -/
def uploadFailedReason : String := "GitHub Upload Failed - File downloaded but upload error"

/-- The Drive branch of the loop body: identifier extraction, metadata
lookup, filename derivation, download, release creation, upload, and the
cleanup of the temp file on each path, exactly as in the source.  Note
that on the download-failure path the loop body itself does NOT remove
the temp file (the download routines have already cleaned up), while the
release-failure path and the tail of the upload branch do remove it. -/
def drivePipeline (env : EntryEnv) (line : String) : EntryResult :=
  match extract_drive_file_id line with
  | none =>
    { outcome := .failedInvalidUrl, linksAdded := [],
      failuresAdded := [{ url := line, reason := invalidUrlReason,
                          filename := none, release_tag := none }],
      netCalls := 0, tempFinal := none, processedInc := 1 }
  | some file_id =>
    let original_name := get_drive_file_info file_id env.metaResp
    let base_name := pathStem original_name
    let ext0 := pathSuffix original_name
    let extension := if ext0 = "" then ".mp4" else ext0
    let safe_name := safeName base_name
    let filename := safe_name ++ extension
    let dl := download_from_drive env.gdown env.fallback 0 none
    let dlCalls := dl.gdownAttempts + (if dl.fallbackInvoked then 1 else 0)
    if dl.success = false then
      { outcome := .failedDownload, linksAdded := [],
        failuresAdded := [{ url := line, reason := downloadFailedReason,
                            filename := some filename, release_tag := none }],
        netCalls := 1 + dlCalls, tempFinal := dl.file, processedInc := 1 }
    else
      let release_tag := "video-" ++ safe_name
      let cr := create_unique_release release_tag env.create 0
      match cr.release with
      | none =>
        { outcome := .failedRelease, linksAdded := [],
          failuresAdded := [{ url := line, reason := releaseFailedReason,
                              filename := some filename, release_tag := none }],
          netCalls := 1 + dlCalls + 2 * cr.attempts, tempFinal := none, processedInc := 1 }
      | some _ =>
        let up := upload_to_release env.upload 0
        match up.url with
        | some u =>
          { outcome := .published u, linksAdded := [u], failuresAdded := [],
            netCalls := 1 + dlCalls + 2 * cr.attempts + up.attempts,
            tempFinal := none, processedInc := 1 }
        | none =>
          { outcome := .failedUpload, linksAdded := [],
            failuresAdded := [{ url := line, reason := uploadFailedReason,
                                filename := some filename, release_tag := some release_tag }],
            netCalls := 1 + dlCalls + 2 * cr.attempts + up.attempts,
            tempFinal := none, processedInc := 1 }

/-- One iteration of the per-line loop: strip, then dispatch on the
classifying if-chain. -/
def processLine (env : EntryEnv) (raw : String) : EntryResult :=
  let line := pyStrip raw
  match classifyLine line with
  | .emptyOrComment =>
    { outcome := .skippedEmpty, linksAdded := [], failuresAdded := [],
      netCalls := 0, tempFinal := none, processedInc := 0 }
  | .alreadyGithub =>
    { outcome := .keptGithub line, linksAdded := [line], failuresAdded := [],
      netCalls := 0, tempFinal := none, processedInc := 0 }
  | .notDrive =>
    { outcome := .skippedForeign, linksAdded := [], failuresAdded := [],
      netCalls := 0, tempFinal := none, processedInc := 0 }
  | .driveUrl => drivePipeline env line

/-- Module-level configuration read from the environment; either entry
may be absent (`os.environ.get` returns None then). -/
structure Config where
  githubToken : Option String
  repoName : Option String

/-- The run environment: whether drive.txt exists, its lines, and the
per-entry external environment, indexed by line position. -/
structure RunEnv where
  driveFileExists : Bool
  lines : List String
  entry : Nat → EntryEnv

/-- Observable result of a whole run: whether the per-entry loop was
reached, the accumulated github_links and failed_links, processed_count,
the content rewritten into drive.txt (None when the run returned before
processing), and the final temp-file state of each entry. -/
structure RunResult where
  ranLoop : Bool
  githubLinks : List String
  failedLinks : List Failure
  processedCount : Nat
  outputWritten : Option (List String)
  tempFiles : List (Option Nat)

/-- Per-entry results of the loop, in input order. -/
def entryResults (env : RunEnv) : List EntryResult :=
  env.lines.enum.map (fun p => processLine (env.entry p.1) p.2)

/-- process_drive_file.  The ONLY check before the per-entry loop is the
existence of drive.txt; the configuration is interpolated into request
headers and URLs (whose responses are part of the environment) and is
never validated, so it does not influence control flow. -/
def process_drive_file (cfg : Config) (env : RunEnv) : RunResult :=
  if env.driveFileExists = false then
    { ranLoop := false, githubLinks := [], failedLinks := [],
      processedCount := 0, outputWritten := none, tempFiles := [] }
  else
    let rs := entryResults env
    let links := rs.foldl (fun acc r => acc ++ r.linksAdded) []
    { ranLoop := true,
      githubLinks := links,
      failedLinks := rs.foldl (fun acc r => acc ++ r.failuresAdded) [],
      processedCount := rs.foldl (fun acc r => acc + r.processedInc) 0,
      outputWritten := some links,
      tempFiles := rs.map (fun r => r.tempFinal) }

/-! ## Helper lemmas -/

/-- Left folds that append per-element contributions compute the
concatenation of those contributions in order. -/
theorem foldl_append_bind {α β : Type} (f : α → List β) :
    ∀ (l : List α) (acc : List β),
      l.foldl (fun a r => a ++ f r) acc = acc ++ l.flatMap f := by
  intro l
  induction l with
  | nil => intro acc; simp
  | cons x xs ih => intro acc; simp [ih, List.append_assoc]

/-- The primary download makes at most `fuel` gdown attempts. -/
theorem gdownGo_attempts_le (genv : Nat → GdownOutcome) :
    ∀ fuel rc pre, (gdownGo genv rc fuel pre).attempts ≤ fuel := by
  intro fuel
  induction fuel with
  | zero => intro rc pre; simp [gdownGo]
  | succ f ih =>
    intro rc pre
    simp only [gdownGo]
    split
    · exact Nat.succ_le_succ (ih _ none)
    · exact Nat.succ_le_succ (ih _ none)
    · exact Nat.le_add_left 1 f
    · split
      · exact Nat.le_add_left 1 f
      · exact Nat.succ_le_succ (ih _ none)

/-- Started with no file on disk, the primary download ends with either
failure and no file, or success and a non-empty file. -/
theorem gdownGo_file (genv : Nat → GdownOutcome) :
    ∀ fuel rc,
      ((gdownGo genv rc fuel none).success = false ∧ (gdownGo genv rc fuel none).file = none)
      ∨ ((gdownGo genv rc fuel none).success = true
          ∧ ∃ k, (gdownGo genv rc fuel none).file = some (k + 1)) := by
  intro fuel
  induction fuel with
  | zero => intro rc; left; simp [gdownGo]
  | succ f ih =>
    intro rc
    simp only [gdownGo]
    split
    · simpa using ih (rc + 1)
    · simpa using ih (rc + 1)
    · right; exact ⟨rfl, _, rfl⟩
    · split
      · left; exact ⟨rfl, rfl⟩
      · simpa using ih (rc + 1)

/-- Release creation makes at most `fuel` attempts. -/
theorem createGo_attempts_le (base : String) (cenv : Nat → CreateEnv) :
    ∀ fuel rc, (createGo base cenv rc fuel).attempts ≤ fuel := by
  intro fuel
  induction fuel with
  | zero => intro rc; simp [createGo]
  | succ f ih =>
    intro rc
    simp only [createGo]
    split
    · split
      · exact Nat.le_add_left 1 f
      · split
        · exact Nat.succ_le_succ (ih _)
        · exact Nat.le_add_left 1 f
    · exact Nat.succ_le_succ (ih _)

/-- Asset upload makes at most `fuel` attempts. -/
theorem uploadGo_attempts_le (uenv : Nat → UploadResp) :
    ∀ fuel rc, (uploadGo uenv rc fuel).attempts ≤ fuel := by
  intro fuel
  induction fuel with
  | zero => intro rc; simp [uploadGo]
  | succ f ih =>
    intro rc
    simp only [uploadGo]
    split
    · split
      · exact Nat.le_add_left 1 f
      · split
        · exact Nat.succ_le_succ (ih _)
        · exact Nat.le_add_left 1 f
    · exact Nat.succ_le_succ (ih _)
    · exact Nat.succ_le_succ (ih _)

/-- A failed combined download never leaves a file at the output path. -/
theorem download_from_drive_fail_file (genv : Nat → GdownOutcome)
    (fout : FallbackOutcome) (rc : Nat) :
    (download_from_drive genv fout rc none).success = false →
    (download_from_drive genv fout rc none).file = none := by
  unfold download_from_drive download_from_drive_gdown
  dsimp only
  split
  · cases fout with
    | exn fa => intro _; rfl
    | done n =>
      cases n with
      | zero => intro _; rfl
      | succ m => intro h; exact absurd h (by simp [download_large_file_fallback])
  · intro h
    dsimp only at h ⊢
    rcases gdownGo_file genv (MAX_RETRIES - rc) rc with ⟨_, hf⟩ | ⟨hs, _⟩
    · exact hf
    · rw [h] at hs; cases hs

/-- The head surviving a dropWhile fails the predicate. -/
theorem head_dropWhile_false {p : Char → Bool} :
    ∀ (l : List Char) c t, l.dropWhile p = c :: t → p c = false := by
  intro l
  induction l with
  | nil => intro c t h; simp [List.dropWhile] at h
  | cons a as ih =>
    intro c t h
    by_cases ha : p a = true
    · rw [List.dropWhile_cons, if_pos ha] at h
      exact ih c t h
    · rw [List.dropWhile_cons, if_neg ha] at h
      cases h
      simpa using ha

/-- Removing trailing whitespace twice is the same as once. -/
theorem dropTrailingWS_idem (l : List Char) :
    dropTrailingWS (dropTrailingWS l) = dropTrailingWS l := by
  induction l with
  | nil => rfl
  | cons c t ih =>
    simp only [dropTrailingWS]
    split
    · rfl
    · rename_i h
      simp only [dropTrailingWS, ih]
      rw [if_neg h]

/-- dropTrailingWS keeps the head of its input, when anything survives. -/
theorem dropTrailingWS_head (l : List Char) :
    dropTrailingWS l = [] ∨ ∃ c t r, l = c :: t ∧ dropTrailingWS l = c :: r := by
  cases l with
  | nil => left; rfl
  | cons c t =>
    simp only [dropTrailingWS]
    split
    · left; rfl
    · right; exact ⟨c, t, dropTrailingWS t, rfl, rfl⟩

/-- Python strip is idempotent: the output of a run, re-read as input, is
stripped to itself. -/
theorem pyStrip_idem (s : String) : pyStrip (pyStrip s) = pyStrip s := by
  unfold pyStrip
  congr 1
  show dropTrailingWS (dropLeadingWS (dropTrailingWS (dropLeadingWS s.toList)))
      = dropTrailingWS (dropLeadingWS s.toList)
  have h1 : dropLeadingWS (dropTrailingWS (dropLeadingWS s.toList))
      = dropTrailingWS (dropLeadingWS s.toList) := by
    rcases dropTrailingWS_head (dropLeadingWS s.toList) with h | ⟨c, t, r, hm, hr⟩
    · rw [h]; rfl
    · rw [hr]
      have hc : c.isWhitespace = false :=
        head_dropWhile_false s.toList c t hm
      simp [dropLeadingWS, List.dropWhile_cons, hc]
  rw [h1, dropTrailingWS_idem]

/-- The chosen tag either avoids the fetched tag list or is the timestamp
fallback tag (which is submitted without a membership check). -/
theorem chooseTagGo_mem (base : String) (existing : List String)
    (pick : Nat → Nat) (ts : Nat) :
    ∀ fuel tag i,
      chooseTagGo base existing pick ts (fuel + 1) tag i ∉ existing
      ∨ chooseTagGo base existing pick ts (fuel + 1) tag i = base ++ "-" ++ Nat.repr ts := by
  intro fuel
  induction fuel with
  | zero =>
    intro tag i
    rw [chooseTagGo]
    split
    · right; rfl
    · left; assumption
  | succ f ih =>
    intro tag i
    rw [chooseTagGo]
    split
    · exact ih _ (i + 1)
    · left; assumption

/-- When the base tag and every suffix candidate collide, the loop ends
on the timestamp fallback tag. -/
theorem chooseTagGo_all_collide (base : String) (existing : List String)
    (pick : Nat → Nat) (ts : Nat)
    (hall : ∀ j, base ++ "-" ++ generate_random_suffix pick (6 * j) ∈ existing) :
    ∀ fuel tag i, tag ∈ existing →
      chooseTagGo base existing pick ts (fuel + 1) tag i = base ++ "-" ++ Nat.repr ts := by
  intro fuel
  induction fuel with
  | zero =>
    intro tag i htag
    rw [chooseTagGo]
    rw [if_pos htag]
  | succ f ih =>
    intro tag i htag
    rw [chooseTagGo]
    rw [if_pos htag]
    exact ih _ (i + 1) (hall i)

/-- Every generated suffix has six characters drawn from the lowercase
letters and digits. -/
theorem generate_random_suffix_spec (pick : Nat → Nat) (start : Nat) :
    (generate_random_suffix pick start).length = 6
    ∧ ∀ c ∈ (generate_random_suffix pick start).toList, c ∈ suffixAlphabet := by
  constructor
  · simp [generate_random_suffix, String.length]
  · intro c hc
    simp only [generate_random_suffix, String.toList, String.mk, List.mem_map] at hc
    obtain ⟨j, _, rfl⟩ := hc
    have hlt : pick (start + j) % 36 < suffixAlphabet.length :=
      Nat.mod_lt _ (by norm_num [suffixAlphabet])
    rw [List.getD_eq_getElem _ _ hlt]
    exact List.getElem_mem hlt

/-- The Drive branch produces either exactly one failure record and no
link, or exactly one link and no failure record. -/
theorem drivePipeline_cases (env : EntryEnv) (line : String) :
    ((drivePipeline env line).linksAdded = []
        ∧ (drivePipeline env line).failuresAdded.length = 1)
    ∨ ((drivePipeline env line).linksAdded.length = 1
        ∧ (drivePipeline env line).failuresAdded = []) := by
  simp only [drivePipeline]
  split
  · left; exact ⟨rfl, rfl⟩
  · split
    · left; exact ⟨rfl, rfl⟩
    · split
      · left; exact ⟨rfl, rfl⟩
      · split
        · right; exact ⟨rfl, rfl⟩
        · left; exact ⟨rfl, rfl⟩

/-- The Drive branch always ends with no temp file on disk. -/
theorem drivePipeline_temp (env : EntryEnv) (line : String) :
    (drivePipeline env line).tempFinal = none := by
  simp only [drivePipeline]
  split
  · rfl
  · split
    · rename_i hdl
      exact download_from_drive_fail_file env.gdown env.fallback 0 hdl
    · split
      · rfl
      · split
        · rfl
        · rfl

/-- Possible terminal outcomes of the Drive branch. -/
theorem drivePipeline_outcome (env : EntryEnv) (line : String) :
    (drivePipeline env line).outcome = .failedInvalidUrl
    ∨ (drivePipeline env line).outcome = .failedDownload
    ∨ (drivePipeline env line).outcome = .failedRelease
    ∨ (drivePipeline env line).outcome = .failedUpload
    ∨ ∃ u, (drivePipeline env line).outcome = .published u := by
  simp only [drivePipeline]
  split
  · exact Or.inl rfl
  · split
    · exact Or.inr (Or.inl rfl)
    · split
      · exact Or.inr (Or.inr (Or.inl rfl))
      · split
        · exact Or.inr (Or.inr (Or.inr (Or.inr ⟨_, rfl⟩)))
        · exact Or.inr (Or.inr (Or.inr (Or.inl rfl)))

/-- The github_links contribution of an entry is read off its outcome:
the kept line for an already-GitHub entry, the asset URL for a published
one, nothing otherwise. -/
theorem processLine_links (env : EntryEnv) (raw : String) :
    (processLine env raw).linksAdded
      = (match (processLine env raw).outcome with
         | .keptGithub l => [l]
         | .published u => [u]
         | _ => []) := by
  simp only [processLine]
  split
  · rfl
  · rfl
  · rfl
  · simp only [drivePipeline]
    split
    · rfl
    · split
      · rfl
      · split
        · rfl
        · split
          · rfl
          · rfl

/-- An entry ends kept exactly when it is classified already-GitHub, and
the kept line is its stripped input line. -/
theorem processLine_kept_iff (env : EntryEnv) (raw : String) (l : String) :
    (processLine env raw).outcome = .keptGithub l
    ↔ (classifyLine (pyStrip raw) = .alreadyGithub ∧ l = pyStrip raw) := by
  constructor
  · intro h
    cases hc : classifyLine (pyStrip raw) with
    | emptyOrComment => simp only [processLine, hc] at h; cases h
    | alreadyGithub =>
      simp only [processLine, hc] at h
      cases h
      exact ⟨rfl, rfl⟩
    | notDrive => simp only [processLine, hc] at h; cases h
    | driveUrl =>
      simp only [processLine, hc] at h
      rcases drivePipeline_outcome env (pyStrip raw) with h1 | h1 | h1 | h1 | ⟨u, h1⟩ <;>
        rw [h1] at h <;> cases h
  · rintro ⟨hc, rfl⟩
    simp only [processLine, hc]

/-- One entry never leaves a temp file behind. -/
theorem processLine_temp (env : EntryEnv) (raw : String) :
    (processLine env raw).tempFinal = none := by
  simp only [processLine]
  split
  · rfl
  · rfl
  · rfl
  · exact drivePipeline_temp env (pyStrip raw)

/-- github_links of a run that reached the loop, unfolded to the ordered
concatenation of the entries' contributions. -/
theorem run_githubLinks_eq (cfg : Config) (env : RunEnv)
    (h : env.driveFileExists = true) :
    (process_drive_file cfg env).githubLinks
      = (entryResults env).flatMap (fun r => r.linksAdded) := by
  simp only [process_drive_file, h]
  rw [if_neg (by simp)]
  dsimp only
  rw [foldl_append_bind]
  simp

/-- failed_links of a run that reached the loop, unfolded to the ordered
concatenation of the entries' failure records. -/
theorem run_failedLinks_eq (cfg : Config) (env : RunEnv)
    (h : env.driveFileExists = true) :
    (process_drive_file cfg env).failedLinks
      = (entryResults env).flatMap (fun r => r.failuresAdded) := by
  simp only [process_drive_file, h]
  rw [if_neg (by simp)]
  dsimp only
  rw [foldl_append_bind]
  simp

/-! ## Claim theorems -/

/-- C1: every input entry classified as migratable (the Drive branch of
the classifier) ends in exactly one of two terminal outcomes: exactly one
published asset URL is appended to github_links, or exactly one failure
record is appended to failed_links — never neither and never both. -/
theorem c1_migratable_exactly_one_record (env : EntryEnv) (raw : String)
    (h : classifyLine (pyStrip raw) = .driveUrl) :
    ((processLine env raw).linksAdded = []
        ∧ (processLine env raw).failuresAdded.length = 1)
    ∨ ((processLine env raw).linksAdded.length = 1
        ∧ (processLine env raw).failuresAdded = []) := by
  have hp : processLine env raw = drivePipeline env (pyStrip raw) := by
    simp only [processLine, h]
  rw [hp]
  exact drivePipeline_cases env (pyStrip raw)

/-- Entry environment in which every external operation fails. -/
def allFailEnv : EntryEnv :=
  { metaResp := none, gdown := fun _ => .exn "boom" none, fallback := .exn none,
    create := fun _ => { tags := [], pick := fun _ => 0, timestamp := 0, resp := .exn },
    upload := fun _ => .otherExn }

/-- Witness for C1 at a concrete migratable line under a failing
environment. -/
theorem c1_witness :
    classifyLine (pyStrip "https://drive.google.com/file/d/ABC/view") = .driveUrl
    ∧ (((processLine allFailEnv "https://drive.google.com/file/d/ABC/view").linksAdded = []
          ∧ (processLine allFailEnv "https://drive.google.com/file/d/ABC/view").failuresAdded.length = 1)
        ∨ ((processLine allFailEnv "https://drive.google.com/file/d/ABC/view").linksAdded.length = 1
          ∧ (processLine allFailEnv "https://drive.google.com/file/d/ABC/view").failuresAdded = [])) :=
  ⟨by decide,
    c1_migratable_exactly_one_record allFailEnv "https://drive.google.com/file/d/ABC/view" (by decide)⟩

/-- C4: each retryable external operation performs at most MAX_RETRIES =
3 attempts, and a call whose retry counter has reached (or passed) the
maximum returns a definitive failure with zero further attempts, so the
self-recursive retries terminate. -/
theorem c4_retry_budget (genv : Nat → GdownOutcome) (pre : Option Nat)
    (base : String) (cenv : Nat → CreateEnv) (uenv : Nat → UploadResp)
    (rc k : Nat) :
    (download_from_drive_gdown genv rc pre).attempts ≤ MAX_RETRIES
    ∧ (create_unique_release base cenv rc).attempts ≤ MAX_RETRIES
    ∧ (upload_to_release uenv rc).attempts ≤ MAX_RETRIES
    ∧ download_from_drive_gdown genv (MAX_RETRIES + k) pre
        = { success := false, file := pre, attempts := 0 }
    ∧ create_unique_release base cenv (MAX_RETRIES + k)
        = { release := none, attempts := 0 }
    ∧ upload_to_release uenv (MAX_RETRIES + k)
        = { url := none, attempts := 0 } := by
  refine ⟨?_, ?_, ?_, ?_, ?_, ?_⟩
  · exact le_trans (gdownGo_attempts_le genv _ rc pre) (Nat.sub_le _ _)
  · exact le_trans (createGo_attempts_le base cenv _ rc) (Nat.sub_le _ _)
  · exact le_trans (uploadGo_attempts_le uenv _ rc) (Nat.sub_le _ _)
  · unfold download_from_drive_gdown
    rw [Nat.sub_eq_zero_of_le (Nat.le_add_right _ _)]
    rfl
  · unfold create_unique_release
    rw [Nat.sub_eq_zero_of_le (Nat.le_add_right _ _)]
    rfl
  · unfold upload_to_release
    rw [Nat.sub_eq_zero_of_le (Nat.le_add_right _ _)]
    rfl

/-- C9: every entry ends with its temp artifact removed, on every path
(the download routines clean up on their failure paths, and the loop body
removes the file on the release-failure, upload-failure and success
paths), so a full run leaves no temp file of any entry on disk. -/
theorem c9_temp_cleanup :
    (∀ (env : EntryEnv) (raw : String), (processLine env raw).tempFinal = none)
    ∧ (∀ (cfg : Config) (env : RunEnv),
        (process_drive_file cfg env).tempFiles.all (fun t => t == none) = true) := by
  constructor
  · exact processLine_temp
  · intro cfg env
    by_cases h : env.driveFileExists = false
    · simp [process_drive_file, h]
    · simp only [process_drive_file, h]
      rw [if_neg (by simp)]
      dsimp only
      rw [List.all_eq_true]
      intro t ht
      rw [List.mem_map] at ht
      obtain ⟨r, hr, rfl⟩ := ht
      rw [entryResults, List.mem_map] at hr
      obtain ⟨p, _, rfl⟩ := hr
      simp [processLine_temp]

/-- C10: a non-empty, non-comment line carrying a GitHub marker is kept
verbatim (as its stripped line) even when it also carries the Drive
marker, because the GitHub check of the if-chain runs before the Drive
check; such an entry makes no network call and is not counted as a
processed Drive entry, and reprocessing the kept line classifies it as
already-migrated again, never as migratable. -/
theorem c10_github_precedence (env : EntryEnv) (raw : String)
    (hne : lineEmpty (pyStrip raw) = false)
    (hnh : startsWithHash (pyStrip raw) = false)
    (hg : hasGithubMarker (pyStrip raw) = true)
    (hd : hasDriveMarker (pyStrip raw) = true) :
    processLine env raw
      = { outcome := .keptGithub (pyStrip raw), linksAdded := [pyStrip raw],
          failuresAdded := [], netCalls := 0, tempFinal := none, processedInc := 0 }
    ∧ ∀ (env2 : EntryEnv),
        processLine env2 (pyStrip raw)
          = { outcome := .keptGithub (pyStrip raw), linksAdded := [pyStrip raw],
              failuresAdded := [], netCalls := 0, tempFinal := none, processedInc := 0 } := by
  have hcl : classifyLine (pyStrip raw) = .alreadyGithub := by
    simp [classifyLine, hne, hnh, hg]
  refine ⟨by simp only [processLine, hcl], fun env2 => ?_⟩
  have h2 : classifyLine (pyStrip (pyStrip raw)) = .alreadyGithub := by
    rw [pyStrip_idem]; exact hcl
  simp only [processLine, pyStrip_idem, hcl]

/-- Witness for C10 at a whitespace-padded line carrying both markers. -/
theorem c10_witness :
    (lineEmpty (pyStrip "  https://github.com/u/r/releases/download/t/drive.google.com.mp4  ") = false
      ∧ hasGithubMarker (pyStrip "  https://github.com/u/r/releases/download/t/drive.google.com.mp4  ") = true
      ∧ hasDriveMarker (pyStrip "  https://github.com/u/r/releases/download/t/drive.google.com.mp4  ") = true)
    ∧ processLine allFailEnv "  https://github.com/u/r/releases/download/t/drive.google.com.mp4  "
        = { outcome := .keptGithub (pyStrip "  https://github.com/u/r/releases/download/t/drive.google.com.mp4  "),
            linksAdded := [pyStrip "  https://github.com/u/r/releases/download/t/drive.google.com.mp4  "],
            failuresAdded := [], netCalls := 0, tempFinal := none, processedInc := 0 } :=
  ⟨⟨by decide, by decide, by decide⟩,
    (c10_github_precedence allFailEnv
      "  https://github.com/u/r/releases/download/t/drive.google.com.mp4  "
      (by decide) (by decide) (by decide) (by decide)).1⟩

/-- C2 (amended): an access-denial exception at the current gdown attempt
makes the primary download fail at once with exactly that one attempt and
no file left behind — but the fallback download is then still invoked,
because download_from_drive runs the fallback exactly when the primary
returned failure and retry_count < MAX_RETRIES, regardless of why the
primary failed. -/
theorem c2_access_denial_policy :
    (∀ (genv : Nat → GdownOutcome) (rc : Nat) (pre : Option Nat) (msg : String)
        (fa : Option Nat),
        rc < MAX_RETRIES → genv rc = .exn msg fa → accessDenied msg = true →
        download_from_drive_gdown genv rc pre
          = { success := false, file := none, attempts := 1 })
    ∧ (∀ (genv : Nat → GdownOutcome) (fout : FallbackOutcome) (rc : Nat)
        (pre : Option Nat),
        (download_from_drive genv fout rc pre).fallbackInvoked = true
        ↔ ((download_from_drive_gdown genv rc pre).success = false ∧ rc < MAX_RETRIES)) := by
  constructor
  · intro genv rc pre msg fa hrc hg hd
    unfold download_from_drive_gdown
    obtain ⟨f, hf⟩ : ∃ f, MAX_RETRIES - rc = f + 1 := ⟨MAX_RETRIES - rc - 1, by omega⟩
    rw [hf, gdownGo, hg]
    dsimp only
    rw [if_pos hd]
  · intro genv fout rc pre
    unfold download_from_drive
    dsimp only
    split
    · rename_i h
      simp only [true_iff]
      exact h
    · rename_i h
      simp only [Bool.false_eq_true, false_iff]
      exact h

/-- gdown environment of the C2 counterexample and witness: every attempt
raises a permission error. -/
def c2Genv : Nat → GdownOutcome := fun _ => .exn "Permission denied" none

/-- C2 counterexample: after a first-attempt access-denial exception the
primary download stops at one attempt, yet the fallback download IS
invoked for the entry (and here even succeeds), refuting the claim that
the fallback is never reached after an access-denial short-circuit. -/
theorem c2_counterexample :
    accessDenied "Permission denied" = true
    ∧ download_from_drive_gdown c2Genv 0 none
        = { success := false, file := none, attempts := 1 }
    ∧ (download_from_drive c2Genv (.done 7) 0 none).fallbackInvoked = true
    ∧ (download_from_drive c2Genv (.done 7) 0 none).success = true :=
  ⟨by decide, by decide, by decide, by decide⟩

/-- Witness for C2 at the concrete permission-error environment. -/
theorem c2_witness :
    (0 < MAX_RETRIES ∧ c2Genv 0 = .exn "Permission denied" none
      ∧ accessDenied "Permission denied" = true
      ∧ download_from_drive_gdown c2Genv 0 none
          = { success := false, file := none, attempts := 1 })
    ∧ ((download_from_drive c2Genv (.done 7) 0 none).fallbackInvoked = true
        ↔ ((download_from_drive_gdown c2Genv 0 none).success = false ∧ 0 < MAX_RETRIES)) :=
  ⟨⟨by decide, rfl, by decide,
      c2_access_denial_policy.1 c2Genv 0 none "Permission denied" none (by decide) rfl (by decide)⟩,
    c2_access_denial_policy.2 c2Genv (.done 7) 0 none⟩

/-- C3 (amended): release creation retries exactly on a 5xx or 429 status
or on ANY exception; upload retries exactly on a 5xx or 408 status, on a
timeout exception, or on ANY other exception; only a non-retryable
response status returns None immediately with a single attempt. -/
theorem c3_retry_conditions :
    (∀ (base : String) (cenv : Nat → CreateEnv) (rc c : Nat),
        rc < MAX_RETRIES → (cenv rc).resp = .status c → c ≠ 201 → ¬(500 ≤ c ∨ c = 429) →
        create_unique_release base cenv rc = { release := none, attempts := 1 })
    ∧ (∀ (base : String) (cenv : Nat → CreateEnv) (rc c : Nat),
        rc < MAX_RETRIES → (cenv rc).resp = .status c → c ≠ 201 → (500 ≤ c ∨ c = 429) →
        create_unique_release base cenv rc
          = { release := (create_unique_release base cenv (rc + 1)).release,
              attempts := (create_unique_release base cenv (rc + 1)).attempts + 1 })
    ∧ (∀ (base : String) (cenv : Nat → CreateEnv) (rc : Nat),
        rc < MAX_RETRIES → (cenv rc).resp = .exn →
        create_unique_release base cenv rc
          = { release := (create_unique_release base cenv (rc + 1)).release,
              attempts := (create_unique_release base cenv (rc + 1)).attempts + 1 })
    ∧ (∀ (uenv : Nat → UploadResp) (rc c : Nat) (u : String),
        rc < MAX_RETRIES → uenv rc = .status c u → c ≠ 201 → ¬(500 ≤ c ∨ c = 408) →
        upload_to_release uenv rc = { url := none, attempts := 1 })
    ∧ (∀ (uenv : Nat → UploadResp) (rc c : Nat) (u : String),
        rc < MAX_RETRIES → uenv rc = .status c u → c ≠ 201 → (500 ≤ c ∨ c = 408) →
        upload_to_release uenv rc
          = { url := (upload_to_release uenv (rc + 1)).url,
              attempts := (upload_to_release uenv (rc + 1)).attempts + 1 })
    ∧ (∀ (uenv : Nat → UploadResp) (rc : Nat),
        rc < MAX_RETRIES → (uenv rc = .timeoutExn ∨ uenv rc = .otherExn) →
        upload_to_release uenv rc
          = { url := (upload_to_release uenv (rc + 1)).url,
              attempts := (upload_to_release uenv (rc + 1)).attempts + 1 }) := by
  have hcstep : ∀ (rc : Nat), rc < MAX_RETRIES →
      ∃ f, MAX_RETRIES - rc = f + 1 ∧ MAX_RETRIES - (rc + 1) = f := by
    intro rc hrc
    exact ⟨MAX_RETRIES - rc - 1, by omega, by omega⟩
  refine ⟨?_, ?_, ?_, ?_, ?_, ?_⟩
  · intro base cenv rc c hrc hresp h201 hretry
    obtain ⟨f, hf, _⟩ := hcstep rc hrc
    unfold create_unique_release
    rw [hf, createGo, hresp]
    dsimp only
    rw [if_neg h201, if_neg hretry]
  · intro base cenv rc c hrc hresp h201 hretry
    obtain ⟨f, hf, hf2⟩ := hcstep rc hrc
    unfold create_unique_release
    rw [hf, hf2, createGo, hresp]
    dsimp only
    rw [if_neg h201, if_pos hretry]
  · intro base cenv rc hrc hresp
    obtain ⟨f, hf, hf2⟩ := hcstep rc hrc
    unfold create_unique_release
    rw [hf, hf2, createGo, hresp]
  · intro uenv rc c u hrc hresp h201 hretry
    obtain ⟨f, hf, _⟩ := hcstep rc hrc
    unfold upload_to_release
    rw [hf, uploadGo, hresp]
    dsimp only
    rw [if_neg h201, if_neg hretry]
  · intro uenv rc c u hrc hresp h201 hretry
    obtain ⟨f, hf, hf2⟩ := hcstep rc hrc
    unfold upload_to_release
    rw [hf, hf2, uploadGo, hresp]
    dsimp only
    rw [if_neg h201, if_pos hretry]
  · intro uenv rc hrc hresp
    obtain ⟨f, hf, hf2⟩ := hcstep rc hrc
    unfold upload_to_release
    rcases hresp with h | h <;> rw [hf, hf2, uploadGo, h]

/-- Creation environment whose POST raises on every attempt. -/
def c3Cenv : Nat → CreateEnv :=
  fun _ => { tags := [], pick := fun _ => 0, timestamp := 0, resp := .exn }

/-- Upload environment raising a non-timeout exception on every attempt. -/
def c3Uenv : Nat → UploadResp := fun _ => .otherExn

/-- C3 counterexample: an exception during release creation does NOT
return None immediately — all three creation attempts run; likewise a
non-timeout exception during upload is retried to three attempts,
refuting the claim that any exception other than an upload timeout aborts
with no further attempt. -/
theorem c3_counterexample :
    (c3Cenv 0).resp = .exn
    ∧ create_unique_release "video-x" c3Cenv 0 = { release := none, attempts := 3 }
    ∧ c3Uenv 0 = .otherExn
    ∧ upload_to_release c3Uenv 0 = { url := none, attempts := 3 } :=
  ⟨rfl, by decide, rfl, by decide⟩

/-- Creation environment answering status 400 on every attempt. -/
def c3Cenv400 : Nat → CreateEnv :=
  fun _ => { tags := [], pick := fun _ => 0, timestamp := 0, resp := .status 400 }

/-- Creation environment answering status 503 on every attempt. -/
def c3Cenv503 : Nat → CreateEnv :=
  fun _ => { tags := [], pick := fun _ => 0, timestamp := 0, resp := .status 503 }

/-- Upload environment answering status 403 on every attempt. -/
def c3Uenv403 : Nat → UploadResp := fun _ => .status 403 "u"

/-- Upload environment answering status 500 on every attempt. -/
def c3Uenv500 : Nat → UploadResp := fun _ => .status 500 "u"

/-- Upload environment raising a timeout on every attempt. -/
def c3UenvT : Nat → UploadResp := fun _ => .timeoutExn

/-- Witness for C3, exercising each of the six retry rules at a concrete
environment. -/
theorem c3_witness :
    create_unique_release "b" c3Cenv400 0 = { release := none, attempts := 1 }
    ∧ create_unique_release "b" c3Cenv503 0
        = { release := (create_unique_release "b" c3Cenv503 1).release,
            attempts := (create_unique_release "b" c3Cenv503 1).attempts + 1 }
    ∧ create_unique_release "b" c3Cenv 0
        = { release := (create_unique_release "b" c3Cenv 1).release,
            attempts := (create_unique_release "b" c3Cenv 1).attempts + 1 }
    ∧ upload_to_release c3Uenv403 0 = { url := none, attempts := 1 }
    ∧ upload_to_release c3Uenv500 0
        = { url := (upload_to_release c3Uenv500 1).url,
            attempts := (upload_to_release c3Uenv500 1).attempts + 1 }
    ∧ upload_to_release c3UenvT 0
        = { url := (upload_to_release c3UenvT 1).url,
            attempts := (upload_to_release c3UenvT 1).attempts + 1 } :=
  ⟨c3_retry_conditions.1 "b" c3Cenv400 0 400 (by decide) rfl (by decide) (by decide),
    c3_retry_conditions.2.1 "b" c3Cenv503 0 503 (by decide) rfl (by decide) (by decide),
    c3_retry_conditions.2.2.1 "b" c3Cenv 0 (by decide) rfl,
    c3_retry_conditions.2.2.2.1 c3Uenv403 0 403 "u" (by decide) rfl (by decide) (by decide),
    c3_retry_conditions.2.2.2.2.1 c3Uenv500 0 500 "u" (by decide) rfl (by decide) (by decide),
    c3_retry_conditions.2.2.2.2.2 c3UenvT 0 (by decide) (Or.inl rfl)⟩

/-- C5 (amended): the chosen release tag is never a member of the
pre-fetched tag list UNLESS the timestamp fallback fires; each colliding
candidate is replaced by the base name plus a random 6-character
lowercase-alphanumeric suffix, and under forced collision the 11th
fallback choice is the base name suffixed with the current Unix timestamp
— submitted without a membership check, so it alone may still collide. -/
theorem c5_tag_selection (base : String) (existing : List String)
    (pick : Nat → Nat) (ts : Nat) :
    (chooseTag base existing pick ts ∉ existing
      ∨ chooseTag base existing pick ts = base ++ "-" ++ Nat.repr ts)
    ∧ ((base ∈ existing
          ∧ ∀ j, base ++ "-" ++ generate_random_suffix pick (6 * j) ∈ existing) →
        chooseTag base existing pick ts = base ++ "-" ++ Nat.repr ts)
    ∧ (∀ start, (generate_random_suffix pick start).length = 6
        ∧ ∀ c ∈ (generate_random_suffix pick start).toList, c ∈ suffixAlphabet) := by
  refine ⟨?_, ?_, fun start => generate_random_suffix_spec pick start⟩
  · exact chooseTagGo_mem base existing pick ts 9 base 0
  · rintro ⟨hb, hall⟩
    exact chooseTagGo_all_collide base existing pick ts hall 9 base 0 hb

/-- C5 counterexample: with the fetched tag list containing the base
name, the constant suffix candidate and the timestamp fallback tag, the
loop ends on the timestamp tag, which IS a member of the fetched list —
refuting the claim that the submitted tag is never in that list. -/
theorem c5_counterexample :
    chooseTag "v" ["v", "v-aaaaaa", "v-5"] (fun _ => 0) 5 = "v-5"
    ∧ "v-5" ∈ ["v", "v-aaaaaa", "v-5"] :=
  ⟨by decide, by decide⟩

/-- Existing-tag list of the C5 witness. -/
def c5wExisting : List String := ["v", "v-aaaaaa"]

/-- Random stream of the C5 witness (constant, so every suffix is
aaaaaa). -/
def c5wPick : Nat → Nat := fun _ => 0

/-- Witness for C5: forced collision at a concrete tag list ends on the
timestamp fallback tag. -/
theorem c5_witness :
    ("v" ∈ c5wExisting
      ∧ ∀ j, "v" ++ "-" ++ generate_random_suffix c5wPick (6 * j) ∈ c5wExisting)
    ∧ chooseTag "v" c5wExisting c5wPick 99 = "v" ++ "-" ++ Nat.repr 99 := by
  have hall : ∀ j, "v" ++ "-" ++ generate_random_suffix c5wPick (6 * j) ∈ c5wExisting := by
    intro j
    show "v" ++ "-" ++ "aaaaaa" ∈ c5wExisting
    decide
  exact ⟨⟨by decide, hall⟩,
    (c5_tag_selection "v" c5wExisting c5wPick 99).2.1 ⟨by decide, hall⟩⟩

/-- C6: the four pattern rules are applied in the fixed source order —
path-embedded id, query-parameter id, short-path id, explicit
download-query id — and the capture of the first matching rule is
returned; when no rule matches a migratable line, the entry gets exactly
one failure record with the invalid-URL reason and performs no external
interaction at all. -/
theorem c6_extraction_order :
    (∀ (url m : String), searchId "/file/d/" url = some m →
        extract_drive_file_id url = some m)
    ∧ (∀ (url m : String), searchId "/file/d/" url = none →
        searchId "id=" url = some m → extract_drive_file_id url = some m)
    ∧ (∀ (url m : String), searchId "/file/d/" url = none →
        searchId "id=" url = none → searchId "/d/" url = some m →
        extract_drive_file_id url = some m)
    ∧ (∀ (url m : String), searchId "/file/d/" url = none →
        searchId "id=" url = none → searchId "/d/" url = none →
        searchId "download?id=" url = some m → extract_drive_file_id url = some m)
    ∧ (∀ (url : String), searchId "/file/d/" url = none →
        searchId "id=" url = none → searchId "/d/" url = none →
        searchId "download?id=" url = none → extract_drive_file_id url = none)
    ∧ (∀ (env : EntryEnv) (raw : String),
        classifyLine (pyStrip raw) = .driveUrl →
        extract_drive_file_id (pyStrip raw) = none →
        processLine env raw
          = { outcome := .failedInvalidUrl, linksAdded := [],
              failuresAdded := [{ url := pyStrip raw, reason := invalidUrlReason,
                                  filename := none, release_tag := none }],
              netCalls := 0, tempFinal := none, processedInc := 1 }) := by
  refine ⟨?_, ?_, ?_, ?_, ?_, ?_⟩
  · intro url m h1
    simp [extract_drive_file_id, drivePatternLits, firstMatch, h1]
  · intro url m h1 h2
    simp [extract_drive_file_id, drivePatternLits, firstMatch, h1, h2]
  · intro url m h1 h2 h3
    simp [extract_drive_file_id, drivePatternLits, firstMatch, h1, h2, h3]
  · intro url m h1 h2 h3 h4
    simp [extract_drive_file_id, drivePatternLits, firstMatch, h1, h2, h3, h4]
  · intro url h1 h2 h3 h4
    simp [extract_drive_file_id, drivePatternLits, firstMatch, h1, h2, h3, h4]
  · intro env raw hc hx
    simp only [processLine, hc]
    simp only [drivePipeline, hx]

/-- Witness for C6: the first rule wins on a standard share link, and a
Drive line without an extractable identifier yields exactly the
invalid-URL failure record with zero external interactions. -/
theorem c6_witness :
    (searchId "/file/d/" "https://drive.google.com/file/d/ABC123/view" = some "ABC123"
      ∧ extract_drive_file_id "https://drive.google.com/file/d/ABC123/view" = some "ABC123")
    ∧ (classifyLine (pyStrip "https://drive.google.com/") = .driveUrl
      ∧ extract_drive_file_id (pyStrip "https://drive.google.com/") = none
      ∧ processLine allFailEnv "https://drive.google.com/"
          = { outcome := .failedInvalidUrl, linksAdded := [],
              failuresAdded := [{ url := pyStrip "https://drive.google.com/",
                                  reason := invalidUrlReason,
                                  filename := none, release_tag := none }],
              netCalls := 0, tempFinal := none, processedInc := 1 }) :=
  ⟨⟨by decide,
      c6_extraction_order.1 "https://drive.google.com/file/d/ABC123/view" "ABC123" (by decide)⟩,
    ⟨by decide, by decide,
      c6_extraction_order.2.2.2.2.2 allFailEnv "https://drive.google.com/"
        (by decide) (by decide)⟩⟩

/-- C7 (amended): a missing input file makes the run return before the
loop with nothing written; whenever the input file exists the loop runs
for EVERY configuration — including a missing credential or repository
name, which is never validated before the loop — and the failure records
of all entries accumulate across the whole batch, so no entry aborts the
run. -/
theorem c7_preconditions (cfg : Config) (env : RunEnv) :
    (env.driveFileExists = false →
      process_drive_file cfg env
        = { ranLoop := false, githubLinks := [], failedLinks := [],
            processedCount := 0, outputWritten := none, tempFiles := [] })
    ∧ (env.driveFileExists = true →
      (process_drive_file cfg env).ranLoop = true
      ∧ (process_drive_file cfg env).failedLinks
          = (entryResults env).flatMap (fun r => r.failuresAdded)) := by
  constructor
  · intro h
    simp [process_drive_file, h]
  · intro h
    refine ⟨?_, run_failedLinks_eq cfg env h⟩
    simp only [process_drive_file, h]
    rw [if_neg (by simp)]

/-- Run environment of the C7 counterexample and witness: the input file
exists and holds one migratable line whose processing fails at every
external operation. -/
def c7Env : RunEnv :=
  { driveFileExists := true,
    lines := ["https://drive.google.com/file/d/ABC/view"],
    entry := fun _ => allFailEnv }

/-- Run environment with the input file missing. -/
def c7EnvNoFile : RunEnv :=
  { driveFileExists := false, lines := [], entry := fun _ => allFailEnv }

/-- C7 counterexample: with BOTH configuration values missing the run
still enters the per-entry loop and processes the entry (one failure
record, one processed Drive entry) — refuting the claim that missing
configuration is checked as a fatal precondition before the loop
starts. -/
theorem c7_counterexample :
    (process_drive_file { githubToken := none, repoName := none } c7Env).ranLoop = true
    ∧ (process_drive_file { githubToken := none, repoName := none } c7Env).failedLinks.length = 1
    ∧ (process_drive_file { githubToken := none, repoName := none } c7Env).processedCount = 1 :=
  ⟨by decide, by decide, by decide⟩

/-- Witness for C7 at the concrete environments, under an absent
configuration. -/
theorem c7_witness :
    (c7EnvNoFile.driveFileExists = false
      ∧ process_drive_file { githubToken := none, repoName := none } c7EnvNoFile
          = { ranLoop := false, githubLinks := [], failedLinks := [],
              processedCount := 0, outputWritten := none, tempFiles := [] })
    ∧ (c7Env.driveFileExists = true
      ∧ (process_drive_file { githubToken := none, repoName := none } c7Env).ranLoop = true
      ∧ (process_drive_file { githubToken := none, repoName := none } c7Env).failedLinks
          = (entryResults c7Env).flatMap (fun r => r.failuresAdded)) :=
  ⟨⟨rfl, (c7_preconditions { githubToken := none, repoName := none } c7EnvNoFile).1 rfl⟩,
    ⟨rfl, ((c7_preconditions { githubToken := none, repoName := none } c7Env).2 rfl).1,
      ((c7_preconditions { githubToken := none, repoName := none } c7Env).2 rfl).2⟩⟩

/-- C8: the output link list written at the end of a run is exactly the
ordered concatenation of the per-entry contributions — the stripped line
of each already-migrated entry and the asset URL of each published entry,
in the order first accepted, each entry contributing exactly once; an
entry is kept exactly when it is classified already-migrated, and what is
kept is its stripped line, unchanged. -/
theorem c8_output_list (cfg : Config) (env : RunEnv)
    (h : env.driveFileExists = true) :
    (process_drive_file cfg env).githubLinks
      = (entryResults env).flatMap (fun r => r.linksAdded)
    ∧ (process_drive_file cfg env).outputWritten
      = some ((entryResults env).flatMap (fun r => r.linksAdded))
    ∧ (∀ (e : EntryEnv) (raw : String),
        (processLine e raw).linksAdded
          = (match (processLine e raw).outcome with
             | .keptGithub l => [l]
             | .published u => [u]
             | _ => []))
    ∧ (∀ (e : EntryEnv) (raw l : String),
        (processLine e raw).outcome = .keptGithub l
        ↔ (classifyLine (pyStrip raw) = .alreadyGithub ∧ l = pyStrip raw)) := by
  refine ⟨run_githubLinks_eq cfg env h, ?_, processLine_links, processLine_kept_iff⟩
  have hl := run_githubLinks_eq cfg env h
  simp only [process_drive_file, h] at hl ⊢
  rw [if_neg (by simp)] at hl ⊢
  dsimp only at hl ⊢
  rw [hl]

/-- Run environment of the C8 witness: a padded already-migrated line, a
comment, a migratable line that publishes, and a foreign line. -/
def c8Env : RunEnv :=
  { driveFileExists := true,
    lines := ["  https://github.com/old/asset.mp4  ",
              "# comment",
              "https://drive.google.com/file/d/ABC/view",
              "https://example.com/x"],
    entry := fun i =>
      if i = 2 then
        { metaResp := some "clip.mp4",
          gdown := fun _ => .ret (some 10),
          fallback := .exn none,
          create := fun _ => { tags := [], pick := fun _ => 0, timestamp := 0,
                               resp := .status 201 },
          upload := fun _ => .status 201 "https://github.com/u/r/releases/download/video-clip/clip.mp4" }
      else allFailEnv }

/-- Witness for C8 at the concrete mixed input. -/
theorem c8_witness :
    c8Env.driveFileExists = true
    ∧ (process_drive_file { githubToken := some "t", repoName := some "u/r" } c8Env).githubLinks
        = (entryResults c8Env).flatMap (fun r => r.linksAdded)
    ∧ (entryResults c8Env).flatMap (fun r => r.linksAdded)
        = ["https://github.com/old/asset.mp4",
           "https://github.com/u/r/releases/download/video-clip/clip.mp4"] :=
  ⟨rfl,
    (c8_output_list { githubToken := some "t", repoName := some "u/r" } c8Env rfl).1,
    by decide⟩

end UploadScript
